import Mathlib

/-!
Verification of the resource-bundle resolution layer of the bokeh excerpt:
`src/bokeh/embed/bundle.py` and `src/bokeh/server/views/blob_handler.py`.

The Python source is shallowly embedded: every function of the source that
the claims touch is translated into an executable Lean definition, with the
ambient process state (the registered model classes, the importable package
directories, the filesystem, the servable-blob registry) made explicit as
parameters.  Fallible Python code (exceptions) is rendered with `Except`.
-/

namespace Bokeh

/-! ## Object model

A bokeh `Model` instance / class, as observed by `bundle.py`: the code only
reads `__implementation__` (presence), `__view_module__`, `__module__`, and
tests `isinstance`/`issubclass` against `Widget`, `TableWidget` and `Plot`
(together with `output_backend`).  The class hierarchy is abstracted into
`ModelKind` (in bokeh, `TableWidget` is a subclass of `Widget`; `Plot` is
neither). -/

inductive ModelKind where
  | widget
  | tableWidget
  | plot (output_backend : String)
  | other
  deriving DecidableEq, Repr

structure Model where
  kind : ModelKind := .other
  /-- `some _` when the class has an `__implementation__` attribute. -/
  implementation : Option String := none
  /-- `__view_module__`. -/
  view_module : String := ""
  /-- `__module__` (read on registered classes by `_query_extensions`). -/
  module : String := ""
  deriving DecidableEq, Repr

/-- `isinstance(obj, Widget)` / `issubclass(cls, Widget)`: in bokeh,
`TableWidget` is itself a `Widget` subclass. -/
def isWidget (m : Model) : Bool :=
  m.kind == .widget || m.kind == .tableWidget

/-- `isinstance(obj, TableWidget)` / `issubclass(cls, TableWidget)`. -/
def isTableWidget (m : Model) : Bool :=
  m.kind == .tableWidget

/-- `isinstance(obj, Plot) and obj.output_backend == "webgl"`. -/
def isPlotWebgl (m : Model) : Bool :=
  match m.kind with
  | .plot backend => backend == "webgl"
  | _ => false

/-- A live object together with the result of its `references()` call.
`references()` is assumed (as in the source) to already be transitively
closed; `bundle.py` only ever consumes its result. -/
structure ObjNode where
  references : List Model := []
  deriving DecidableEq, Repr

/-- An element of the `objs` argument: a `Model` or a `Document` (the latter
exposing its `roots`). -/
inductive ObjOrDoc where
  | model (o : ObjNode)
  | doc (roots : List ObjNode)
  deriving DecidableEq, Repr

/-- `s.split(".")[0]`: the prefix of `s` before the first dot. -/
def topLevel (s : String) : String :=
  String.mk (s.toList.takeWhile (fun c => c != '.'))

/-- `s.startswith(pre)`. -/
def startswith (s pre : String) : Bool :=
  pre.toList.isPrefixOf s.toList

/-- Auxiliary to `_all_objs`: the union of `root.references()` over the
roots of one `Document`. -/
def allRoots : List ObjNode → List Model
  | [] => []
  | r :: rest => r.references ++ allRoots rest

/-- `_all_objs(objs)`: the union of `references()` over all inputs,
expanding `Document`s into their roots.  The source builds a Python set and
every downstream use is order-insensitive (membership tests, per-name
first-occurrence dedup keyed deterministically); we keep the underlying
list. -/
def _all_objs : List ObjOrDoc → List Model
  | [] => []
  | o :: rest =>
    (match o with
     | .model m => m.references
     | .doc roots => allRoots roots) ++ _all_objs rest

/-- Auxiliary to `_any`: the recursive call `_any(obj.roots, query)` where
every element is a `Model`, unfolded (a root is never a `Document`). -/
def anyRoots (roots : List ObjNode) (query : Model → Bool) : Bool :=
  roots.any (fun r => r.references.any query)

/-- `_any(objs, query)`: whether `query` holds of some referenced object. -/
def _any : List ObjOrDoc → (Model → Bool) → Bool
  | [], _ => false
  | o :: rest, query =>
    (match o with
     | .doc roots => anyRoots roots query
     | .model m => m.references.any query) || _any rest query

/-! ## Ambient process state

`bundle.py` reads several pieces of process-global state; they are gathered
into `Env` and threaded explicitly. -/

/-- `package.json` contents, restricted to the keys the source reads.
`name` is read with `pkg["name"]`; the claims only concern metadata that
declares a name, so it is a required field here. -/
structure PkgJson where
  name : String
  version : Option String := none
  module : Option String := none
  main : Option String := none
  deriving DecidableEq, Repr

structure Env where
  /-- `Model.model_class_reverse_map.values()`: all registered model
  classes. -/
  model_class_reverse_map : List Model := []
  /-- `dirname(__import__(name).__file__)`: root directory of the installed
  package with the given top-level name. -/
  baseOf : String → String := fun _ => ""
  /-- Parsed contents of the file at a given path when it exists and is a
  JSON package-metadata file (`exists(package_path)` + `json.load`). -/
  pkgJson : String → Option PkgJson := fun _ => none
  /-- `os.path.exists` for artifact files. -/
  file_exists : String → Bool := fun _ => false
  /-- File contents as text; `Resources._inline` (bokeh/resources.py, not
  part of src/) is modelled from the spec as reading the artifact file
  verbatim. -/
  read_file : String → String := fun _ => ""
  /-- Modelled from the spec: `DEFAULT_SERVER_HTTP_URL`, the
  `{serverHttpBase}` prefix (bokeh/resources.py is not part of src/). -/
  server_http_url : String := "http://localhost:5006/"
  /-- `bundle_models` (bokeh/util/compiler.py, not part of src/): optional
  generated implementation code for a set of classes; modelled from the
  spec as an opaque collaborator. -/
  bundle_models : Option (List Model) → Option String := fun _ => none

/-! ## Feature detector -/

/-- The loop of `_query_extensions`: walk the referenced objects, skipping
ones with an `__implementation__`, core (`bokeh`) ones and already-seen
package names; for a fresh third-party package name scan all registered
model classes whose `__module__` starts with that name and short-circuit
when `query` succeeds on one. -/
def queryExtLoop (env : Env) (query : Model → Bool) :
    List Model → List String → Bool
  | [], _ => false
  | obj :: rest, names =>
    if obj.implementation.isSome then queryExtLoop env query rest names
    else
      let name := topLevel obj.view_module
      if name == "bokeh" then queryExtLoop env query rest names
      else if names.contains name then queryExtLoop env query rest names
      else if env.model_class_reverse_map.any
          (fun m => startswith m.module name && query m) then true
      else queryExtLoop env query rest (name :: names)

/-- `_query_extensions(objs, query)`. -/
def _query_extensions (env : Env) (objs : List ObjOrDoc)
    (query : Model → Bool) : Bool :=
  queryExtLoop env query (_all_objs objs) []

/-- `_ext_use_tables(objs)`. -/
def _ext_use_tables (env : Env) (objs : List ObjOrDoc) : Bool :=
  _query_extensions env objs isTableWidget

/-- `_ext_use_widgets(objs)`. -/
def _ext_use_widgets (env : Env) (objs : List ObjOrDoc) : Bool :=
  _query_extensions env objs isWidget

/-- `_use_gl(objs)`. -/
def _use_gl (objs : List ObjOrDoc) : Bool :=
  _any objs isPlotWebgl

/-- `_use_tables(objs)`. -/
def _use_tables (env : Env) (objs : List ObjOrDoc) : Bool :=
  _any objs isTableWidget || _ext_use_tables env objs

/-- `_use_widgets(objs)`. -/
def _use_widgets (env : Env) (objs : List ObjOrDoc) : Bool :=
  _any objs isWidget || _ext_use_widgets env objs

/-! ## Extension resolver (`_bundle_extensions`) -/

/-- Python exceptions raised by the embedded code. -/
inductive PyErr where
  /-- `NameError`: an undefined variable was read. -/
  | nameError (ident : String)
  /-- `ValueError(msg)`. -/
  | valueError (msg : String)
  /-- `AttributeError`: attribute read on an object lacking it. -/
  | attributeError (msg : String)
  /-- `KeyError`: `d[k]` on a missing key. -/
  | keyError (k : String)
  deriving DecidableEq, Repr

/-- `posixpath.join(a, b)` for two components. -/
def join (a b : String) : String :=
  if b.toList.head? = some '/' then b
  else if a == "" then b
  else if a.toList.getLast? = some '/' then a ++ b
  else a ++ "/" ++ b

/-- The process-wide servable-blob registry `servables` (a dict from
server-relative path to filesystem path), threaded explicitly. -/
def Reg := String → Option String

/-- `servables[k] = v`. -/
def regInsert (r : Reg) (k v : String) : Reg :=
  fun p => if p == k then some v else r p

/-- The empty registry. -/
def regEmpty : Reg := fun _ => none

structure ExtensionEmbed where
  artifact_path : String
  server_url : String
  cdn_url : Option String := none
  deriving DecidableEq, Repr

/-- `[".min.js", ".js"] if resources.minified else [".js"]`. -/
def extsOf (minified : Bool) : List String :=
  if minified then [".min.js", ".js"] else [".js"]

/-- The `for ext in extensions: ... else: raise ValueError` search of the
no-metadata branch.  Each iteration computes `artifact_path` and
`server_path` and then evaluates `exists(artifact)` — but no variable named
`artifact` is ever bound in the source function, so the first iteration
raises `NameError` (the list of extensions is never empty). -/
def noMetaLoop (name base : String) :
    List String → Except PyErr (String × String × Option String)
  | [] => .error (.valueError ("cannot resolve artifact path for " ++ name
      ++ " extension"))
  | ext :: _rest =>
    let artifact_path := join (join base "dist") (name ++ ext)
    let server_path := name ++ "@latest/dist/" ++ (name ++ ext)
    -- the source tests `exists(artifact)`, an unbound name
    .error (.nameError "artifact")

/-- Resolution of one fresh package name inside the `_bundle_extensions`
loop, returning `(artifact_path, server_path, cdn_url)`.  In the metadata
branch note that `pkg.get("module", pkg["main"])` evaluates its default
argument `pkg["main"]` before the lookup, so a missing `"main"` key raises
`KeyError` even when `"module"` is present. -/
def resolveOne (env : Env) (extensions : List String) (name : String) :
    Except PyErr (String × String × Option String) :=
  let base := env.baseOf name
  let package_path := join base "package.json"
  match env.pkgJson package_path with
  | some pkg =>
    match pkg.main with
    | none => .error (.keyError "main")
    | some mainDefault =>
      let pkg_name := pkg.name
      let version := pkg.version.getD "latest"
      let main := pkg.module.getD mainDefault
      let artifact_path := join base main
      let server_path := pkg_name ++ "@^" ++ version ++ "/" ++ main
      let cdn_url := "https://unpkg.com/" ++ pkg_name ++ "@^" ++ version
          ++ "/" ++ main
      .ok (artifact_path, server_path, some cdn_url)
  | none => noMetaLoop name base extensions

/-- `f"{DEFAULT_SERVER_HTTP_URL}{server_prefix}/{server_path}"` with
`server_prefix = "static/extensions"`. -/
def serverUrlOf (env : Env) (server_path : String) : String :=
  env.server_http_url ++ "static/extensions" ++ "/" ++ server_path

/-- The main loop of `_bundle_extensions`: accumulates the seen package
names, the emitted descriptors and the servable-blob registry. -/
def bundleExtLoop (env : Env) (extensions : List String) :
    List Model → List String → List ExtensionEmbed → Reg →
    Except PyErr (List ExtensionEmbed × Reg)
  | [], _names, bundles, reg => .ok (bundles, reg)
  | obj :: rest, names, bundles, reg =>
    if obj.implementation.isSome then
      bundleExtLoop env extensions rest names bundles reg
    else
      let name := topLevel obj.view_module
      if name == "bokeh" then
        bundleExtLoop env extensions rest names bundles reg
      else if names.contains name then
        bundleExtLoop env extensions rest names bundles reg
      else
        match resolveOne env extensions name with
        | .error e => .error e
        | .ok (artifact_path, server_path, cdn_url) =>
          bundleExtLoop env extensions rest (name :: names)
            (bundles ++ [⟨artifact_path, serverUrlOf env server_path, cdn_url⟩])
            (regInsert reg server_path artifact_path)

/-- `_all_objs(objs) if objs is not None else
Model.model_class_reverse_map.values()`. -/
def candidatesOf (env : Env) (objs : Option (List ObjOrDoc)) : List Model :=
  match objs with
  | some l => _all_objs l
  | none => env.model_class_reverse_map

/-- `_bundle_extensions(objs, resources)`, with `resources.minified` passed
as a boolean and the `servables` registry threaded in and out. -/
def _bundle_extensions (env : Env) (objs : Option (List ObjOrDoc))
    (minified : Bool) (reg : Reg) : Except PyErr (List ExtensionEmbed × Reg) :=
  bundleExtLoop env (extsOf minified) (candidatesOf env objs) [] [] reg

/-! ### Specification-side description of the resolver loop (for the
deduplication claim): the eligible package names in first-encounter order,
and their one-by-one resolution. -/

/-- The package name a candidate contributes, or `none` when the candidate
is skipped (inline `__implementation__`, or core `bokeh` package). -/
def eligName (m : Model) : Option String :=
  if m.implementation.isSome then none
  else
    let n := topLevel m.view_module
    if n == "bokeh" then none else some n

/-- First-occurrence-wins deduplicated list of eligible package names,
relative to an already-seen set. -/
def eligNames : List Model → List String → List String
  | [], _ => []
  | m :: rest, seen =>
    match eligName m with
    | none => eligNames rest seen
    | some n =>
      if seen.contains n then eligNames rest seen
      else n :: eligNames rest (n :: seen)

/-- Follows the spec: resolve each of the given (distinct) package names in
order, emitting one descriptor per name and registering each
`serverPath -> artifactPath` mapping. -/
def resolveNamesSpec (env : Env) (extensions : List String) :
    List String → Reg → Except PyErr (List ExtensionEmbed × Reg)
  | [], reg => .ok ([], reg)
  | n :: rest, reg =>
    match resolveOne env extensions n with
    | .error e => .error e
    | .ok (artifact_path, server_path, cdn_url) =>
      match resolveNamesSpec env extensions rest
          (regInsert reg server_path artifact_path) with
      | .error e => .error e
      | .ok (bs, reg2) =>
        .ok (⟨artifact_path, serverUrlOf env server_path, cdn_url⟩ :: bs, reg2)

/-! ## Resources providers and the bundle -/

/-- A `BaseResources` provider, as observed by `bundle.py` (spec interface:
script/style files and raw entries, `minified`, `hashes`, `mode`, and the
prunable `js_components` list).  `bundle.py` never looks inside how the
script-file list is derived from the component list (that lives in
bokeh/resources.py, outside src/); following the spec, one script file per
component, produced by `js_component_file`. -/
structure BResources where
  mode : String := "inline"
  minified : Bool := false
  js_components : List String := []
  /-- Modelled from the spec: the script file a component contributes. -/
  js_component_file : String → String := fun c => c
  js_raw : List String := []
  css_files : List String := []
  css_raw : List String := []
  hashes : Option (List (String × String)) := none

/-- The `resources` argument after the settings override: `None`, a single
`BaseResources`, a two-element tuple of optional `BaseResources`, or
anything else (which raises `ValueError`).  The string-mode shorthand and
the environment-variable override of `settings.resources` are external to
src/ and outside every claim; they are modelled as already applied. -/
inductive ResourcesArg where
  | nothing
  | one (r : BResources)
  | pair (js css : Option BResources)
  | invalid

/-- Warning text for a pair with scripts but no styles. -/
def cssWarning : String :=
  "No Bokeh CSS Resources provided to template. If required you will need to provide them manually."

/-- Warning text for a pair with styles but no scripts. -/
def jsWarning : String :=
  "No Bokeh JS Resources provided to template. If required you will need to provide them manually."

/-- Lines 139-150: split the argument into the script-side and style-side
providers, collecting the non-fatal warnings, or raise `ValueError`. -/
def resolveResourcesArg :
    ResourcesArg → Except PyErr (Option BResources × Option BResources × List String)
  | .nothing => .ok (none, none, [])
  | .one r => .ok (some r, some r, [])
  | .pair js css =>
    let w1 := if js.isSome && !css.isSome then [cssWarning] else []
    let w2 := if css.isSome && !js.isSome then [jsWarning] else []
    .ok (js, css, w1 ++ w2)
  | .invalid =>
    .error (.valueError "expected Resources or a pair of optional Resources")

/-- Line 183: `resources.mode if resources is not None else "inline"`.
`resources` here is the original argument: when it is a tuple, the
attribute read `resources.mode` raises `AttributeError` (tuples have no
`mode`).  The `.invalid` case is unreachable (a `ValueError` was raised
earlier). -/
def modeOf : ResourcesArg → Except PyErr String
  | .nothing => .ok "inline"
  | .one r => .ok r.mode
  | .pair _ _ => .error (.attributeError "tuple object has no attribute mode")
  | .invalid => .error (.attributeError "mode")

/-- Python truthiness of the `objs` argument (`None` and `[]` are falsy). -/
def truthyObjs : Option (List ObjOrDoc) → Bool
  | none => false
  | some l => !l.isEmpty

/-- Line 155: `_use_widgets(objs) if objs else True`. -/
def useWidgetsOf (env : Env) (objs : Option (List ObjOrDoc)) : Bool :=
  if truthyObjs objs then _use_widgets env (objs.getD []) else true

/-- Line 156: `_use_tables(objs) if objs else True`. -/
def useTablesOf (env : Env) (objs : Option (List ObjOrDoc)) : Bool :=
  if truthyObjs objs then _use_tables env (objs.getD []) else true

/-- Line 157: `_use_gl(objs) if objs else True`. -/
def useGlOf (env : Env) (objs : Option (List ObjOrDoc)) : Bool :=
  if truthyObjs objs then _use_gl (objs.getD []) else true

/-- Lines 166-171: remove each unused prunable component when present
(`List.erase` removes the first occurrence when present and is the identity
otherwise, matching the guarded `list.remove`). -/
def pruneJsComponents (env : Env) (objs : Option (List ObjOrDoc))
    (comps : List String) : List String :=
  let c1 := if useWidgetsOf env objs then comps else comps.erase "bokeh-widgets"
  let c2 := if useTablesOf env objs then c1 else c1.erase "bokeh-tables"
  if useGlOf env objs then c2 else c2.erase "bokeh-gl"

/-- `Resources._inline(path)` (bokeh/resources.py, not part of src/):
modelled from the spec as reading the artifact file as raw script text. -/
def Resources_inline (env : Env) (path : String) : String :=
  env.read_file path

/-- Lines 184-191: project the resolved descriptors into additions to the
script-file list and the raw-script list according to deployment mode.
Script-file entries are Python values that may be a string or `None`
(`bundle.cdn_url` is `Optional`), hence `Option String`. -/
def projectExtensions (env : Env) (mode : String)
    (extensions : List ExtensionEmbed) : List (Option String) × List String :=
  if mode == "inline" then
    ([], extensions.map fun b => Resources_inline env b.artifact_path)
  else if mode == "server" then
    (extensions.map fun b => some b.server_url, [])
  else if mode == "cdn" then
    (extensions.map fun b => b.cdn_url, [])
  else
    (extensions.map fun b => some b.artifact_path, [])

/-- The `Bundle` value: four ordered lists plus the optional hash map. -/
structure Bundle where
  js_files : List (Option String) := []
  js_raw : List String := []
  css_files : List String := []
  css_raw : List String := []
  hashes : Option (List (String × String)) := none
  deriving DecidableEq, Repr

/-- `Bundle.of`. -/
def Bundle.of (js_files : List (Option String)) (js_raw : List String)
    (css_files : List String) (css_raw : List String)
    (hashes : Option (List (String × String))) : Bundle :=
  ⟨js_files, js_raw, css_files, css_raw, hashes⟩

/-- An argument to `Bundle.add`: one of the four artifact classes, or any
other Python value (`other`), which the `isinstance` chain ignores. -/
inductive Artifact where
  | scriptRef (url : String) (ty : String)
  | script (content : String) (ty : String)
  | styleRef (url : String)
  | style (content : String)
  | other
  deriving DecidableEq, Repr

/-- `Bundle.add(artifact)`: append to the list matching the class of the artifact; silently do nothing for any other value. -/
def Bundle.add (b : Bundle) (artifact : Artifact) : Bundle :=
  match artifact with
  | .scriptRef url _ => { b with js_files := b.js_files ++ [some url] }
  | .script content _ => { b with js_raw := b.js_raw ++ [content] }
  | .styleRef url => { b with css_files := b.css_files ++ [url] }
  | .style content => { b with css_raw := b.css_raw ++ [content] }
  | .other => b

/-- Line 193: `[obj.__class__ for obj in _all_objs(objs)] if objs else
None` (a class is represented by the `Model` value itself). -/
def modelsOf (objs : Option (List ObjOrDoc)) : Option (List Model) :=
  if truthyObjs objs then some (_all_objs (objs.getD [])) else none

/-- Lines 193-196: the optional extra raw script produced by
`bundle_models`. -/
def extraRaw (env : Env) (objs : Option (List ObjOrDoc)) : List String :=
  match env.bundle_models (modelsOf objs) with
  | some s => [s]
  | none => []

/-- Lines 152-198 after the providers are known: prune the script
components, append provider entries, resolve and project the extensions
(script side only), append generated implementation code, and build the
`Bundle`. -/
def assembleWithProviders (env : Env) (objs : Option (List ObjOrDoc))
    (resources : ResourcesArg) (reg : Reg)
    (js_resources css_resources : Option BResources) :
    Except PyErr (Bundle × Reg) :=
  let css_files := match css_resources with
    | some cr => cr.css_files
    | none => []
  let css_raw := match css_resources with
    | some cr => cr.css_raw
    | none => []
  match js_resources with
  | none =>
    .ok (Bundle.of [] (extraRaw env objs) css_files css_raw none, reg)
  | some jr =>
    let comps := pruneJsComponents env objs jr.js_components
    let js_files0 : List (Option String) :=
      comps.map (fun c => some (jr.js_component_file c))
    let js_raw0 := jr.js_raw
    match _bundle_extensions env objs jr.minified reg with
    | .error e => .error e
    | .ok (extensions, reg2) =>
      match modeOf resources with
      | .error e => .error e
      | .ok mode =>
        let proj := projectExtensions env mode extensions
        .ok (Bundle.of (js_files0 ++ proj.1)
             (js_raw0 ++ proj.2 ++ extraRaw env objs)
             css_files css_raw jr.hashes, reg2)

/-- `bundle_for_objs_and_resources(objs, resources)`: returns the warnings
issued and either the assembled bundle (with the updated servable-blob
registry) or the raised exception. -/
def bundle_for_objs_and_resources (env : Env) (objs : Option (List ObjOrDoc))
    (resources : ResourcesArg) (reg : Reg) :
    List String × Except PyErr (Bundle × Reg) :=
  match resolveResourcesArg resources with
  | .error e => ([], .error e)
  | .ok (js_resources, css_resources, warnings) =>
    match assembleWithProviders env objs resources reg js_resources css_resources with
    | .error e => (warnings, .error e)
    | .ok br => (warnings, .ok br)

/-! ## Blob server (`blob_handler.py`) -/

/-- A failure of `BlobHandler.get`. -/
inductive BlobErr where
  /-- `HTTPError(status)`. -/
  | httpError (status : Nat)
  /-- `open(path, "rb")` raised (no file at the mapped path). -/
  | ioError (path : String)
  deriving DecidableEq, Repr

/-- The handler state: the injected `blobs` mapping (`Protocol(get: (str)
=> str)`, realized by the servable-blob registry). -/
structure BlobHandler where
  blobs : String → Option String

/-- `BlobHandler.get(path)`: look the path up in `blobs`; if mapped, read
the file at the mapped location on disk (`disk` gives the bytes of each existing file) and answer with content-type `application/octet-stream`; otherwise
raise `HTTPError(404)`. -/
def BlobHandler.get (h : BlobHandler) (disk : String → Option (List Nat))
    (path : String) : Except BlobErr (String × List Nat) :=
  match h.blobs path with
  | some artifact_path =>
    match disk artifact_path with
    | some contents => .ok ("application/octet-stream", contents)
    | none => .error (.ioError artifact_path)
  | none => .error (.httpError 404)

/-! ## Helper lemmas -/

theorem anyRoots_eq (roots : List ObjNode) (query : Model → Bool) :
    anyRoots roots query = (allRoots roots).any query := by
  induction roots with
  | nil => rfl
  | cons r rest ih =>
    simp [anyRoots, allRoots, List.any_append] at *
    rw [ih]

theorem any_eq_all_objs (objs : List ObjOrDoc) (query : Model → Bool) :
    _any objs query = (_all_objs objs).any query := by
  induction objs with
  | nil => rfl
  | cons o rest ih =>
    cases o with
    | model m => simp [_any, _all_objs, List.any_append, ih]
    | doc roots => simp [_any, _all_objs, List.any_append, ih, anyRoots_eq]

theorem queryExtLoop_eq_false (env : Env) (query : Model → Bool) :
    ∀ cands : List Model,
    (∀ m ∈ cands, m.implementation = none →
      topLevel m.view_module ≠ "bokeh" →
      ∀ cls ∈ env.model_class_reverse_map,
        startswith cls.module (topLevel m.view_module) = true → query cls = false) →
    ∀ names : List String, queryExtLoop env query cands names = false := by
  intro cands
  induction cands with
  | nil => intro _ names; rfl
  | cons m rest ih =>
    intro h names
    have hrest := fun x hx => h x (List.mem_cons_of_mem _ hx)
    by_cases h1 : m.implementation.isSome
    · simpa [queryExtLoop, h1] using ih hrest names
    · by_cases h2 : topLevel m.view_module = "bokeh"
      · simpa [queryExtLoop, h1, h2] using ih hrest names
      · have hscan : (env.model_class_reverse_map.any
            (fun cls => startswith cls.module (topLevel m.view_module) && query cls)) = false := by
          rw [List.any_eq_false]
          intro cls hcls
          have hm := h m (List.mem_cons_self _ _)
            (Option.not_isSome_iff_eq_none.mp h1) h2 cls hcls
          cases hsw : startswith cls.module (topLevel m.view_module) with
          | false => simp
          | true => simp [hm hsw]
        by_cases h3 : topLevel m.view_module ∈ names
        · simpa [queryExtLoop, h1, h2, h3] using ih hrest names
        · simpa [queryExtLoop, h1, h2, h3, hscan] using
            ih hrest (topLevel m.view_module :: names)

theorem eligNames_nodup : ∀ (cands : List Model) (seen : List String),
    (∀ n ∈ eligNames cands seen, n ∉ seen) ∧ (eligNames cands seen).Nodup := by
  intro cands
  induction cands with
  | nil => intro seen; simp [eligNames]
  | cons m rest ih =>
    intro seen
    cases he : eligName m with
    | none => simpa [eligNames, he] using ih seen
    | some n =>
      by_cases hc : n ∈ seen
      · simpa [eligNames, he, hc] using ih seen
      · constructor
        · intro x hx
          simp [eligNames, he, hc] at hx
          rcases hx with hx | hx
          · subst hx; exact hc
          · have := (ih (n :: seen)).1 x hx
            intro hxs
            exact this (List.mem_cons_of_mem _ hxs)
        · simp [eligNames, he, hc]
          refine ⟨?_, (ih (n :: seen)).2⟩
          intro hmem
          exact (ih (n :: seen)).1 n hmem (List.mem_cons_self _ _)

theorem bundleExtLoop_eq_spec (env : Env) (extensions : List String) :
    ∀ (cands : List Model) (names : List String)
      (bundles : List ExtensionEmbed) (reg : Reg),
    bundleExtLoop env extensions cands names bundles reg =
      match resolveNamesSpec env extensions (eligNames cands names) reg with
      | .error e => .error e
      | .ok (bs, reg2) => .ok (bundles ++ bs, reg2) := by
  intro cands
  induction cands with
  | nil =>
    intro names bundles reg
    simp [bundleExtLoop, eligNames, resolveNamesSpec]
  | cons m rest ih =>
    intro names bundles reg
    by_cases h1 : m.implementation.isSome
    · simpa [bundleExtLoop, eligNames, eligName, h1] using ih names bundles reg
    · by_cases h2 : topLevel m.view_module = "bokeh"
      · simpa [bundleExtLoop, eligNames, eligName, h1, h2] using ih names bundles reg
      · by_cases h3 : topLevel m.view_module ∈ names
        · simpa [bundleExtLoop, eligNames, eligName, h1, h2, h3] using ih names bundles reg
        · simp [bundleExtLoop, eligNames, eligName, h1, h2, h3]
          cases hres : resolveOne env extensions (topLevel m.view_module) with
          | error e => simp [resolveNamesSpec, hres]
          | ok t =>
            obtain ⟨a, sp, c⟩ := t
            simp only [resolveNamesSpec, hres]
            rw [ih]
            cases hs : resolveNamesSpec env extensions
                (eligNames rest (topLevel m.view_module :: names)) (regInsert reg sp a) with
            | error e => simp
            | ok p =>
              obtain ⟨bs, reg2⟩ := p
              simp

/-! ## Concrete fixtures used by witnesses and counterexamples -/

/-- Metadata of the example package: `name=foo, version=1.2.0,
main=dist/foo.js`. -/
def cPkgFoo : PkgJson :=
  { name := "foo", version := some "1.2.0", main := some "dist/foo.js" }

/-- A process where the installed package `foo` has the metadata above. -/
def cEnvFoo : Env where
  baseOf := fun _ => "/ext/foo"
  pkgJson := fun p => if p = "/ext/foo/package.json" then some cPkgFoo else none

/-- One object whose defining module lives in package `foo`. -/
def objFoo : ObjOrDoc := .model { references := [ { view_module := "foo.models" } ] }

/-- Metadata declaring the entry point only through `"module"` (no
`"main"`). -/
def cPkgMod : PkgJson :=
  { name := "foo", version := some "1.2.0", module := some "dist/foo.mjs" }

/-- A process where the installed package `foo` has module-only metadata. -/
def cEnvMod : Env where
  baseOf := fun _ => "/ext/foo"
  pkgJson := fun p => if p = "/ext/foo/package.json" then some cPkgMod else none

/-- A process where package `bar` has no metadata file and only the
non-minified artifact `dist/bar.js` exists on disk. -/
def cEnvBar : Env where
  baseOf := fun _ => "/ext/bar"
  file_exists := fun p => p == "/ext/bar/dist/bar.js"

/-- One object whose defining module lives in package `bar`. -/
def objBar : ObjOrDoc := .model { references := [ { view_module := "bar.models" } ] }

/-- A process where package `baz` has neither a metadata file nor any
artifact on disk. -/
def cEnvBaz : Env where
  baseOf := fun _ => "/ext/baz"

/-- One object whose defining module lives in package `baz`. -/
def objBaz : ObjOrDoc := .model { references := [ { view_module := "baz.models" } ] }

/-- The descriptor resolved for the `foo` example package. -/
def cExtsFoo : List ExtensionEmbed :=
  [ { artifact_path := "/ext/foo/dist/foo.js",
      server_url := "http://localhost:5006/static/extensions/foo@^1.2.0/dist/foo.js",
      cdn_url := some "https://unpkg.com/foo@^1.2.0/dist/foo.js" } ]

/-- The servable-blob registry after resolving the `foo` example. -/
def cRegFoo : Reg :=
  regInsert regEmpty "foo@^1.2.0/dist/foo.js" "/ext/foo/dist/foo.js"

/-! ## Claims -/

/-- C1 (corrected), theorem for the amended claim: for every third-party
package whose metadata file declares a name, an optional version
(defaulting to `"latest"`), a `"main"` entry point and optionally a
`"module"` entry point preferred over `"main"`, the resolver produces
`artifactPath` = package root joined with the entry point, `serverPath` =
`{name}@^{version}/{entryPoint}` and `cdnUrl` =
`https://unpkg.com/{name}@^{version}/{entryPoint}`.  (The amendment: a
`"main"` field must be present, because `pkg.get("module", pkg["main"])`
evaluates its default argument first; see `c1_counterexample`.) -/
theorem c1_amended_resolution (env : Env) (extensions : List String)
    (name : String) (pkg : PkgJson) (m0 : String)
    (hp : env.pkgJson (join (env.baseOf name) "package.json") = some pkg)
    (hm : pkg.main = some m0) :
    resolveOne env extensions name =
      .ok (join (env.baseOf name) (pkg.module.getD m0),
           pkg.name ++ "@^" ++ pkg.version.getD "latest" ++ "/" ++ pkg.module.getD m0,
           some ("https://unpkg.com/" ++ pkg.name ++ "@^" ++ pkg.version.getD "latest"
             ++ "/" ++ pkg.module.getD m0)) := by
  simp [resolveOne, hp, hm]

/-- C1 witness: the concrete example of the claim (`name=foo`,
`version=1.2.0`, `main=dist/foo.js`) resolves to
`serverPath = "foo@^1.2.0/dist/foo.js"` and
`cdnUrl = "https://unpkg.com/foo@^1.2.0/dist/foo.js"`. -/
theorem c1_witness :
    resolveOne cEnvFoo [".js"] "foo" =
      .ok ("/ext/foo/dist/foo.js", "foo@^1.2.0/dist/foo.js",
           some "https://unpkg.com/foo@^1.2.0/dist/foo.js") := by
  rw [c1_amended_resolution cEnvFoo [".js"] "foo" cPkgFoo "dist/foo.js" rfl rfl]
  rfl

/-- C1 counterexample: a package whose metadata declares its entry point
only through the (preferred) `"module"` field is inside the claim as
stated, yet the resolver raises `KeyError("main")` instead of producing
the claimed descriptor. -/
theorem c1_counterexample :
    resolveOne cEnvMod [".js"] "foo" = .error (.keyError "main") ∧
    (Except.error (PyErr.keyError "main") ≠
      (.ok ("/ext/foo/dist/foo.mjs", "foo@^1.2.0/dist/foo.mjs",
        some "https://unpkg.com/foo@^1.2.0/dist/foo.mjs") :
        Except PyErr (String × String × Option String))) :=
  ⟨rfl, by simp⟩

/-- C2 (code_bug): for the package `bar` with no metadata file, minified
resources requested, `dist/bar.min.js` absent and `dist/bar.js` present on
disk, the claim says the resolver returns a descriptor whose artifact path
is the existing non-minified file; the code instead raises
`NameError("artifact")`, because the existence check at
`src/bokeh/embed/bundle.py:262` reads the never-bound variable `artifact`
instead of `artifact_path`. -/
theorem c2_code_evaluation :
    cEnvBar.file_exists "/ext/bar/dist/bar.js" = true ∧
    cEnvBar.file_exists "/ext/bar/dist/bar.min.js" = false ∧
    cEnvBar.pkgJson "/ext/bar/package.json" = none ∧
    _bundle_extensions cEnvBar (some [objBar]) true regEmpty =
      .error (.nameError "artifact") :=
  ⟨rfl, rfl, rfl, rfl⟩

/-- C3 (code_bug): for the package `baz` with neither metadata nor any
dist artifact, the claim says resolution fails with the ResolutionError
(`ValueError("can't resolve artifact path ...")` of
`src/bokeh/embed/bundle.py:265`); the code instead raises
`NameError("artifact")` on the first loop iteration
(`src/bokeh/embed/bundle.py:262`), before the for-else branch is ever
reached. -/
theorem c3_code_evaluation :
    cEnvBaz.pkgJson "/ext/baz/package.json" = none ∧
    cEnvBaz.file_exists "/ext/baz/dist/baz.min.js" = false ∧
    cEnvBaz.file_exists "/ext/baz/dist/baz.js" = false ∧
    _bundle_extensions cEnvBaz (some [objBaz]) true regEmpty =
      .error (.nameError "artifact") ∧
    (PyErr.nameError "artifact" ≠
      .valueError ("cannot resolve artifact path for baz extension")) :=
  ⟨rfl, rfl, rfl, rfl, by decide⟩

/-- C7 (confirmed): `_bundle_extensions` equals the specification-side
resolver that processes exactly the deduplicated (first occurrence wins)
list of eligible package names — candidates carrying an
`__implementation__` or defined by the core `bokeh` package contribute no
name — and that name list has no duplicates, so at most one descriptor is
emitted per distinct top-level package name. -/
theorem c7_dedup_refinement (env : Env) (objs : Option (List ObjOrDoc))
    (minified : Bool) (reg : Reg) :
    _bundle_extensions env objs minified reg =
      resolveNamesSpec env (extsOf minified)
        (eligNames (candidatesOf env objs) []) reg ∧
    (eligNames (candidatesOf env objs) []).Nodup := by
  constructor
  · rw [_bundle_extensions, bundleExtLoop_eq_spec]
    cases hs : resolveNamesSpec env (extsOf minified)
        (eligNames (candidatesOf env objs) []) reg with
    | error e => rfl
    | ok p => obtain ⟨bs, reg2⟩ := p; simp
  · exact (eligNames_nodup _ _).2

/-- C9 (confirmed): the blob handler answers `HTTPError(404)` exactly when
the requested path is not in the registry, and for a registered path whose
mapped file exists on disk it returns exactly those bytes with
content-type `application/octet-stream`. -/
theorem c9_blob_lookup (h : BlobHandler) (disk : String → Option (List Nat))
    (path : String) :
    (BlobHandler.get h disk path = .error (.httpError 404) ↔
      h.blobs path = none) ∧
    (∀ ap bytes, h.blobs path = some ap → disk ap = some bytes →
      BlobHandler.get h disk path = .ok ("application/octet-stream", bytes)) := by
  constructor
  · constructor
    · intro he
      cases hb : h.blobs path with
      | none => rfl
      | some ap =>
        cases hd : disk ap with
        | none => simp [BlobHandler.get, hb, hd] at he
        | some contents => simp [BlobHandler.get, hb, hd] at he
    · intro hb
      simp [BlobHandler.get, hb]
  · intro ap bytes hb hd
    simp [BlobHandler.get, hb, hd]

/-- The blob registry of the C9 witness. -/
def cBlobs : BlobHandler := ⟨fun p => if p = "a" then some "/f" else none⟩

/-- The on-disk bytes of the C9 witness. -/
def cDisk : String → Option (List Nat) :=
  fun p => if p = "/f" then some [7, 8, 9] else none

/-- C9 witness: a registered path returns the bytes on disk; an
unregistered one returns 404. -/
theorem c9_witness :
    BlobHandler.get cBlobs cDisk "a" = .ok ("application/octet-stream", [7, 8, 9]) ∧
    BlobHandler.get cBlobs cDisk "b" = .error (.httpError 404) :=
  ⟨(c9_blob_lookup cBlobs cDisk "a").2 "/f" [7, 8, 9] rfl rfl,
   (c9_blob_lookup cBlobs cDisk "b").1.mpr rfl⟩

/-- C10 (confirmed): `Bundle.add` on a value of none of the four artifact
classes leaves the bundle (all four lists and the hash mapping) unchanged
and raises nothing; on each recognized class it appends one entry to
exactly the corresponding list, leaving the other three lists and the hash
mapping unchanged. -/
theorem c10_add_frame (b : Bundle) :
    (Bundle.add b .other = b) ∧
    (∀ url ty, Bundle.add b (.scriptRef url ty) =
      { b with js_files := b.js_files ++ [some url] }) ∧
    (∀ content ty, Bundle.add b (.script content ty) =
      { b with js_raw := b.js_raw ++ [content] }) ∧
    (∀ url, Bundle.add b (.styleRef url) =
      { b with css_files := b.css_files ++ [url] }) ∧
    (∀ content, Bundle.add b (.style content) =
      { b with css_raw := b.css_raw ++ [content] }) :=
  ⟨rfl, fun _ _ => rfl, fun _ _ => rfl, fun _ => rfl, fun _ => rfl⟩

/-- An environment with no registered classes and no installed packages. -/
def cEnvEmpty : Env := {}

/-- C5 (confirmed): with an absent (`None`) or empty object set, all three
feature predicates are forced to `true`, and consequently the component
pruning leaves every script resources component list untouched, whatever
the configuration. -/
theorem c5_empty_objs_defaults (env : Env) (objs : Option (List ObjOrDoc))
    (h : objs = none ∨ objs = some []) :
    useWidgetsOf env objs = true ∧ useTablesOf env objs = true ∧
    useGlOf env objs = true ∧
    ∀ comps : List String, pruneJsComponents env objs comps = comps := by
  rcases h with h | h <;> subst h <;>
    simp [useWidgetsOf, useTablesOf, useGlOf, truthyObjs, pruneJsComponents]

/-- C5 witness at `objs = none`. -/
theorem c5_witness :
    useWidgetsOf cEnvEmpty none = true ∧ useTablesOf cEnvEmpty none = true ∧
    useGlOf cEnvEmpty none = true ∧
    pruneJsComponents cEnvEmpty none ["bokeh-widgets", "bokeh-tables", "bokeh-gl"] =
      ["bokeh-widgets", "bokeh-tables", "bokeh-gl"] := by
  have h := c5_empty_objs_defaults cEnvEmpty none (Or.inl rfl)
  exact ⟨h.1, h.2.1, h.2.2.1, h.2.2.2 _⟩

/-- The script-side provider of the C8 evaluation. -/
def cR8 : BResources := { mode := "cdn" }

/-- C8 (code_bug): for a pair supplying only the script provider, the
claim says a warning is emitted and a Bundle is still returned; the code
emits the warning but then raises `AttributeError` at
`src/bokeh/embed/bundle.py:183`, which reads `resources.mode` while
`resources` is still the tuple.  (For a pair supplying only the style
provider the claim holds: the warning is emitted and a Bundle is
returned.) -/
theorem c8_code_evaluation :
    bundle_for_objs_and_resources cEnvEmpty (some []) (.pair (some cR8) none) regEmpty =
      ([cssWarning], .error (.attributeError "tuple object has no attribute mode")) ∧
    bundle_for_objs_and_resources cEnvEmpty (some []) (.pair none (some cR8)) regEmpty =
      ([jsWarning], .ok (Bundle.of [] [] [] [] none, regEmpty)) :=
  ⟨rfl, rfl⟩

/-- C4 (confirmed): with a single resources provider, assembly appends the
projection of the resolved descriptors after the (pruned) core script
files, and the projection is: raw inlined file contents (and no file
reference) under `inline` mode, the `server_url` values under `server`
mode, the `cdn_url` values under `cdn` mode, and the `artifact_path`
values verbatim under any other mode. -/
theorem c4_mode_projection (env : Env) (objs : Option (List ObjOrDoc))
    (r : BResources) (reg : Reg) (exts : List ExtensionEmbed) (reg2 : Reg)
    (hx : _bundle_extensions env objs r.minified reg = .ok (exts, reg2)) :
    bundle_for_objs_and_resources env objs (.one r) reg =
      ([], .ok (Bundle.of
        ((pruneJsComponents env objs r.js_components).map
          (fun c => some (r.js_component_file c)) ++
          (projectExtensions env r.mode exts).1)
        (r.js_raw ++ (projectExtensions env r.mode exts).2 ++ extraRaw env objs)
        r.css_files r.css_raw r.hashes, reg2)) ∧
    (r.mode = "inline" →
      (projectExtensions env r.mode exts).1 = [] ∧
      (projectExtensions env r.mode exts).2 =
        exts.map (fun b => Resources_inline env b.artifact_path)) ∧
    (r.mode = "server" →
      (projectExtensions env r.mode exts).1 = exts.map (fun b => some b.server_url) ∧
      (projectExtensions env r.mode exts).2 = []) ∧
    (r.mode = "cdn" →
      (projectExtensions env r.mode exts).1 = exts.map (fun b => b.cdn_url) ∧
      (projectExtensions env r.mode exts).2 = []) ∧
    (r.mode ≠ "inline" → r.mode ≠ "server" → r.mode ≠ "cdn" →
      (projectExtensions env r.mode exts).1 = exts.map (fun b => some b.artifact_path) ∧
      (projectExtensions env r.mode exts).2 = []) := by
  refine ⟨?_, ?_, ?_, ?_, ?_⟩
  · simp [bundle_for_objs_and_resources, resolveResourcesArg,
      assembleWithProviders, hx, modeOf]
  · intro h; simp [projectExtensions, h]
  · intro h; simp [projectExtensions, h]
  · intro h; simp [projectExtensions, h]
  · intro h1 h2 h3; simp [projectExtensions, h1, h2, h3]

/-- The provider of the C4 witness (cdn mode, non-minified). -/
def cR4 : BResources := { mode := "cdn" }

/-- C4 witness: the `foo` example package under cdn mode. -/
theorem c4_witness :
    (_bundle_extensions cEnvFoo (some [objFoo]) cR4.minified regEmpty =
      .ok (cExtsFoo, cRegFoo)) ∧
    (projectExtensions cEnvFoo cR4.mode cExtsFoo).1 =
      cExtsFoo.map (fun b => b.cdn_url) ∧
    bundle_for_objs_and_resources cEnvFoo (some [objFoo]) (.one cR4) regEmpty =
      ([], .ok (Bundle.of
        ((pruneJsComponents cEnvFoo (some [objFoo]) cR4.js_components).map
          (fun c => some (cR4.js_component_file c)) ++
          (projectExtensions cEnvFoo cR4.mode cExtsFoo).1)
        (cR4.js_raw ++ (projectExtensions cEnvFoo cR4.mode cExtsFoo).2 ++
          extraRaw cEnvFoo (some [objFoo]))
        cR4.css_files cR4.css_raw cR4.hashes, cRegFoo)) := by
  have h := c4_mode_projection cEnvFoo (some [objFoo]) cR4 regEmpty cExtsFoo cRegFoo rfl
  exact ⟨rfl, (h.2.2.2.1 rfl).1, h.1⟩

/-- A registered third-party class that is a `Widget` subclass. -/
def cRegistryWidget : Model := { kind := .widget, module := "extpkg.widgets" }

/-- An environment whose class registry holds that widget subclass. -/
def cEnvQ : Env := { model_class_reverse_map := [cRegistryWidget] }

/-- A non-widget object defined by the same third-party package. -/
def cObjQ : ObjOrDoc := .model { references := [ { view_module := "extpkg.foo" } ] }

/-- C6 counterexample: a non-empty object set referencing no widget, no
table widget and no webgl plot, for which `usesWidgets` is nevertheless
`true`, because the referenced third-party package `extpkg` has a
registered `Widget` subclass and `_use_widgets` falls through to
`_query_extensions`. -/
theorem c6_counterexample :
    ([cObjQ] ≠ ([] : List ObjOrDoc)) ∧
    ((_all_objs [cObjQ]).all
      (fun m => !isWidget m && !isTableWidget m && !isPlotWebgl m) = true) ∧
    _use_widgets cEnvQ [cObjQ] = true :=
  ⟨by simp, rfl, rfl⟩

/-- `issubclass(cls, TableWidget)` implies `issubclass(cls, Widget)`,
contrapositive form. -/
theorem isTableWidget_false_of_isWidget_false (m : Model)
    (h : isWidget m = false) : isTableWidget m = false := by
  cases hk : m.kind <;> simp_all [isWidget, isTableWidget]

/-- C6 (corrected), theorem for the amended claim: for every non-empty
object set referencing no widget, no table widget and no webgl plot, and —
the amendment — such that no registered model class belonging to a
referenced third-party package is a `Widget` (hence also no `TableWidget`)
subclass, all three predicates are `false`; and provided each prunable
component occurs at most once in the script components and extension
resolution succeeds, the assembled script-file list is built from the
component list with `bokeh-widgets`, `bokeh-tables` and `bokeh-gl` removed
(so it excludes all three), followed by the extension projection. -/
theorem c6_amended_pruning (env : Env) (l : List ObjOrDoc) (r : BResources)
    (reg : Reg) (exts : List ExtensionEmbed) (reg2 : Reg)
    (hne : l ≠ [])
    (hobjs : ∀ m ∈ _all_objs l,
      isWidget m = false ∧ isTableWidget m = false ∧ isPlotWebgl m = false)
    (hreg : ∀ m ∈ _all_objs l, m.implementation = none →
      topLevel m.view_module ≠ "bokeh" →
      ∀ cls ∈ env.model_class_reverse_map,
        startswith cls.module (topLevel m.view_module) = true →
        isWidget cls = false)
    (hdup : r.js_components.Nodup)
    (hx : _bundle_extensions env (some l) r.minified reg = .ok (exts, reg2)) :
    _use_widgets env l = false ∧ _use_tables env l = false ∧
    _use_gl l = false ∧
    "bokeh-widgets" ∉
      ((r.js_components.erase "bokeh-widgets").erase "bokeh-tables").erase "bokeh-gl" ∧
    "bokeh-tables" ∉
      ((r.js_components.erase "bokeh-widgets").erase "bokeh-tables").erase "bokeh-gl" ∧
    "bokeh-gl" ∉
      ((r.js_components.erase "bokeh-widgets").erase "bokeh-tables").erase "bokeh-gl" ∧
    pruneJsComponents env (some l) r.js_components =
      ((r.js_components.erase "bokeh-widgets").erase "bokeh-tables").erase "bokeh-gl" ∧
    bundle_for_objs_and_resources env (some l) (.one r) reg =
      ([], .ok (Bundle.of
        ((((r.js_components.erase "bokeh-widgets").erase "bokeh-tables").erase "bokeh-gl").map
          (fun c => some (r.js_component_file c)) ++
          (projectExtensions env r.mode exts).1)
        (r.js_raw ++ (projectExtensions env r.mode exts).2 ++ extraRaw env (some l))
        r.css_files r.css_raw r.hashes, reg2)) := by
  have hanyW : _any l isWidget = false := by
    rw [any_eq_all_objs, List.any_eq_false]
    intro m hm; simp [(hobjs m hm).1]
  have hanyT : _any l isTableWidget = false := by
    rw [any_eq_all_objs, List.any_eq_false]
    intro m hm; simp [(hobjs m hm).2.1]
  have hanyG : _any l isPlotWebgl = false := by
    rw [any_eq_all_objs, List.any_eq_false]
    intro m hm; simp [(hobjs m hm).2.2]
  have hqW : _ext_use_widgets env l = false := by
    exact queryExtLoop_eq_false env isWidget (_all_objs l) hreg []
  have hqT : _ext_use_tables env l = false := by
    refine queryExtLoop_eq_false env isTableWidget (_all_objs l) ?_ []
    intro m hm h1 h2 cls hcls hsw
    exact isTableWidget_false_of_isWidget_false cls (hreg m hm h1 h2 cls hcls hsw)
  have huw : _use_widgets env l = false := by
    simp [_use_widgets, hanyW, hqW]
  have hut : _use_tables env l = false := by
    simp [_use_tables, hanyT, hqT]
  have hug : _use_gl l = false := hanyG
  have htru : truthyObjs (some l) = true := by
    cases l with
    | nil => exact absurd rfl hne
    | cons a t => rfl
  have hprune : pruneJsComponents env (some l) r.js_components =
      ((r.js_components.erase "bokeh-widgets").erase "bokeh-tables").erase "bokeh-gl" := by
    simp [pruneJsComponents, useWidgetsOf, useTablesOf, useGlOf, htru, huw, hut, hug]
  have hd1 : (r.js_components.erase "bokeh-widgets").Nodup := hdup.erase _
  have hd2 : ((r.js_components.erase "bokeh-widgets").erase "bokeh-tables").Nodup :=
    hd1.erase _
  have hmW : "bokeh-widgets" ∉
      ((r.js_components.erase "bokeh-widgets").erase "bokeh-tables").erase "bokeh-gl" := by
    intro hmem
    have h1 := List.mem_of_mem_erase hmem
    have h2 := List.mem_of_mem_erase h1
    exact ((List.Nodup.mem_erase_iff hdup).mp h2).1 rfl
  have hmT : "bokeh-tables" ∉
      ((r.js_components.erase "bokeh-widgets").erase "bokeh-tables").erase "bokeh-gl" := by
    intro hmem
    have h1 := List.mem_of_mem_erase hmem
    exact ((List.Nodup.mem_erase_iff hd1).mp h1).1 rfl
  have hmG : "bokeh-gl" ∉
      ((r.js_components.erase "bokeh-widgets").erase "bokeh-tables").erase "bokeh-gl" := by
    intro hmem
    exact ((List.Nodup.mem_erase_iff hd2).mp hmem).1 rfl
  refine ⟨huw, hut, hug, hmW, hmT, hmG, hprune, ?_⟩
  simp [bundle_for_objs_and_resources, resolveResourcesArg,
    assembleWithProviders, hx, modeOf, hprune]

/-- The object set of the C6 witness: one core object. -/
def cObjsW : List ObjOrDoc :=
  [.model { references := [ { view_module := "bokeh.models" } ] }]

/-- The provider of the C6 witness. -/
def cRW : BResources :=
  { mode := "server",
    js_components := ["bokeh", "bokeh-widgets", "bokeh-tables", "bokeh-gl"] }

/-- C6 witness: the amended claim applied to a concrete core-only object
set. -/
theorem c6_witness :
    (_bundle_extensions cEnvEmpty (some cObjsW) cRW.minified regEmpty =
      .ok ([], regEmpty)) ∧
    _use_widgets cEnvEmpty cObjsW = false ∧
    "bokeh-widgets" ∉
      ((cRW.js_components.erase "bokeh-widgets").erase "bokeh-tables").erase "bokeh-gl" ∧
    pruneJsComponents cEnvEmpty (some cObjsW) cRW.js_components =
      ((cRW.js_components.erase "bokeh-widgets").erase "bokeh-tables").erase "bokeh-gl" := by
  have h := c6_amended_pruning cEnvEmpty cObjsW cRW regEmpty [] regEmpty
    (by decide) (by decide) (by decide) (by decide) rfl
  exact ⟨rfl, h.1, h.2.2.2.1, h.2.2.2.2.2.2.1⟩

end Bokeh
